import Mathlib

/-!
# The ART dispatch shim of tomopy (`source/cxx/art.cc`)

A shallow embedding of `cxx_art`, `art_cpu` and `art_cuda`.

* The output buffer `recon`, the function-local `static std::atomic<int> active`
  and the diagnostic stream are explicit state (`World`).
* A `void` call that may throw is an `Effect`: the `what()` of the exception, if
  any, together with the buffer and the diagnostics it leaves behind.
* `run_algorithm` is a template of `utils.hh`, which is not part of the sources
  at hand.  `cxx_art` therefore takes it as an argument, of the type the call
  site fixes: it receives the two backends, the arguments and the buffer.
* One call is modelled at a time; updates of `active` by calls running on other
  threads in between are outside the model.
-/

namespace Tomopy

/-! ## Data model -/

/-- A C `float` stored in a buffer, kept as its 32-bit pattern.  The shim never
computes on one. -/
abbrev CFloat := Nat

/-- The read-only arguments shared by `cxx_art`, `art_cpu` and `art_cuda`
(everything but the output pointer `recon`). -/
structure Args where
  data : List CFloat
  dy : Int
  dt : Int
  dx : Int
  center : List CFloat
  theta : List CFloat
  ngridx : Int
  ngridy : Int
  num_iter : Int
deriving DecidableEq

/-- One record on the logging / timing side channel. -/
inductive Diag where
  /-- A scope of `TIMEMORY_AUTO_TIMER(tag)` -/
  | auto_timer (tag : String)
  /-- The start of `cxx_timer` by `START_TIMER` -/
  | start_timer
  /-- The `printf` of line 75 -/
  | header (tid : Nat) (func : String) (nitr dy dt dx nx ny : Int)
  /-- The line of `REPORT_TIMER(cxx_timer, __FUNCTION__, count, tcount)` -/
  | report_timer (func : String) (elapsed : Nat) (count tcount : Int)
  /-- The `printf` of line 91 -/
  | report_env (tid : Nat) (text : String)
  /-- The `printf` of line 96 -/
  | remaining (tid : Nat) (remain : Int)
  /-- Text written by the dispatch layer -/
  | dispatch_note (text : String)
deriving DecidableEq

/-- What a `void` call leaves behind: `thrown = some what` when it exits by a
`std::runtime_error`, `none` when it returns normally. -/
structure Effect where
  thrown : Option String
  recon : List CFloat
  out : List Diag
deriving DecidableEq

/-- A reconstruction backend: the arguments and the current buffer to an effect. -/
abbrev Backend := Args → List CFloat → Effect

/-- The type of the call `run_algorithm(art_cpu, art_cuda, data, ..., num_iter)`. -/
abbrev RunAlgorithm := Backend → Backend → Args → List CFloat → Effect

/-- The state `cxx_art` can touch. -/
structure World where
  recon : List CFloat
  active : Int
  out : List Diag
deriving DecidableEq

/-- What `cxx_art` reads from its surroundings. -/
structure Env where
  /-- Boolean environment variables, `none` when unset -/
  boolVar : String → Option Bool
  /-- Integer environment variables, `none` when unset -/
  intVar : String → Option Int
  /-- The value of `GetThisThreadID()` -/
  tid : Nat
  /-- The value of `HW_CONCURRENCY` -/
  hw_concurrency : Int
  /-- The reading of `cxx_timer` at `REPORT_TIMER` -/
  elapsed : Nat
  /-- The text `PrintEnv` writes -/
  env_text : String

/-- How a call of `cxx_art` ends. -/
inductive Ret where
  | returned (v : Int)
  | thrown (what : String)
deriving DecidableEq

/-- A finished call of `cxx_art`: how it ended and the state it left. -/
structure Call where
  ret : Ret
  world : World
deriving DecidableEq

/-! ## Helpers of `utils.hh` -/

/-- Modelled from the spec: `GetEnv<bool>(name, default)` of `utils.hh` is absent;
it is the variable's value if set, otherwise the default. -/
def GetEnv_bool (env : Env) (name : String) (dflt : Bool) : Bool :=
  match env.boolVar name with
  | some b => b
  | none => dflt

/-- Modelled from the spec: `GetEnv(name, default)` at an integer default, absent
from the sources; the thread-count hint if set, otherwise the default. -/
def GetEnv_int (env : Env) (name : String) (dflt : Int) : Int :=
  match env.intVar name with
  | some n => n
  | none => dflt

/-- Modelled from the spec: the macro `scast` is absent; `scast<int>(b)` is
`static_cast<int>(b)`, i.e. 1 for `true` and 0 for `false`. -/
def scast_int (b : Bool) : Int := if b then 1 else 0

/-- Two's-complement wrap of an `int` (the arithmetic of `std::atomic<int>`). -/
def wrap32 (x : Int) : Int := (x + 2 ^ 31) % 2 ^ 32 - 2 ^ 31

/-! ## The backends (lines 104-124) -/

/-- The `what()` of the exception of `art_cpu` (line 112). -/
def what_cxx : String := "ART algorithm has not been implemented for CXX"

/-- The `what()` of the exception of `art_cuda` (line 123). -/
def what_cuda : String := "ART algorithm has not been implemented for CUDA"

/-- The backend `art_cpu`: consumes its parameters, opens a timer scope, throws. -/
def art_cpu : Backend := fun _ recon =>
  Effect.mk (some what_cxx) recon [Diag.auto_timer "[cpu]"]

/-- The backend `art_cuda` (the definition compiled without `TOMOPY_USE_CUDA`):
consumes its parameters, opens a timer scope, throws. -/
def art_cuda : Backend := fun _ recon =>
  Effect.mk (some what_cuda) recon [Diag.auto_timer "[cuda]"]

/-! ## The dispatcher (lines 56-100) -/

/-- Lines 61-62: the effective switch. -/
def use_c_algorithm (env : Env) : Bool :=
  GetEnv_bool env "TOMOPY_USE_C_ALGORITHMS" (GetEnv_bool env "TOMOPY_USE_C_ART" false)

/-- The switch in the words of the specification: `TOMOPY_USE_C_ALGORITHMS` if
it is set, otherwise `TOMOPY_USE_C_ART` if that is set, otherwise `false`. -/
def effective_switch_spec (env : Env) : Bool :=
  match env.boolVar "TOMOPY_USE_C_ALGORITHMS" with
  | some b => b
  | none =>
    match env.boolVar "TOMOPY_USE_C_ART" with
    | some b => b
    | none => false

/-- Lines 87-97: the closing report. -/
def closing_report (env : Env) (remain : Int) : Diag :=
  if remain = 0 then Diag.report_env env.tid env.env_text
  else Diag.remaining env.tid remain

/-- The dispatcher `cxx_art`, with `run_algorithm` as an argument. -/
def cxx_art (run_algorithm : RunAlgorithm) (env : Env) (a : Args) (w : World) : Call :=
  if use_c_algorithm env then
    Call.mk (Ret.returned (scast_int false)) w
  else
    let count := w.active
    let active1 := wrap32 (w.active + 1)
    let out1 := w.out ++
      [Diag.start_timer, Diag.auto_timer "",
       Diag.header env.tid "cxx_art" a.num_iter a.dy a.dt a.dx a.ngridx a.ngridy,
       Diag.auto_timer ""]
    let r := run_algorithm art_cpu art_cuda a w.recon
    match r.thrown with
    | some what =>
        -- the exception leaves cxx_art; `--active` is not reached
        Call.mk (Ret.thrown what) (World.mk r.recon active1 (out1 ++ r.out))
    | none =>
        let tcount := GetEnv_int env "TOMOPY_PYTHON_THREADS" env.hw_concurrency
        let remain := wrap32 (active1 - 1)
        Call.mk (Ret.returned (scast_int true))
          (World.mk r.recon remain
            (out1 ++ r.out ++
              [Diag.report_timer "cxx_art" env.elapsed count tcount,
               closing_report env remain]))

/-! ## Instances of the dispatch layer -/

/-- The device a dispatch layer settles on. -/
inductive Device where
  | cpu
  | cuda
deriving DecidableEq

/-- Modelled from the spec: `run_algorithm` of `utils.hh` is absent.  "A dispatch
layer selects between equivalent backends": the selected backend is invoked and
its effect, a failure included, is the effect of the dispatch. -/
def run_algorithm_select (sel : Device) : RunAlgorithm := fun cpu cuda a recon =>
  match sel with
  | Device.cpu => cpu a recon
  | Device.cuda => cuda a recon

/-- A dispatch layer that runs the CPU backend inside `try`/`catch`, writes the
`what()` of a caught exception to the diagnostics and returns normally.  It serves to exercise
lines 84-99 of `cxx_art`, which run only after a normal return of the dispatch. -/
def run_algorithm_catch : RunAlgorithm := fun cpu _ a recon =>
  let r := cpu a recon
  match r.thrown with
  | some what => Effect.mk none r.recon (r.out ++ [Diag.dispatch_note what])
  | none => r

/-- Modelled from the spec: the well-formed inputs of section 4.4, "mismatched
array lengths, non-positive grid dimensions" excluded. -/
def WellFormed (a : Args) (recon : List CFloat) : Prop :=
  0 < a.dy ∧ 0 < a.dt ∧ 0 < a.dx ∧ 0 < a.ngridx ∧ 0 < a.ngridy ∧
  (a.data.length : Int) = a.dy * a.dt * a.dx ∧
  (a.center.length : Int) = a.dy ∧
  (a.theta.length : Int) = a.dt ∧
  (recon.length : Int) = a.dy * a.ngridx * a.ngridy

instance (a : Args) (recon : List CFloat) : Decidable (WellFormed a recon) := by
  unfold WellFormed; infer_instance

/-! ## Concrete inputs -/

/-- No variable set. -/
def env_unset : Env :=
  Env.mk (fun _ => none) (fun _ => none) 7 8 123 "TOMOPY_NUM_THREADS=8"

/-- Only `TOMOPY_USE_C_ART=true`. -/
def env_c_art : Env :=
  Env.mk (fun n => if n = "TOMOPY_USE_C_ART" then some true else none)
    (fun _ => none) 7 8 123 "TOMOPY_USE_C_ART=true"

/-- Both set: `TOMOPY_USE_C_ART=true` and `TOMOPY_USE_C_ALGORITHMS=false`. -/
def env_override : Env :=
  Env.mk (fun n => if n = "TOMOPY_USE_C_ART" then some true
                   else if n = "TOMOPY_USE_C_ALGORITHMS" then some false else none)
    (fun _ => none) 7 8 123 "TOMOPY_USE_C_ART=true"

/-- No switch set, another thread, another clock, a thread-count hint. -/
def env_other : Env :=
  Env.mk (fun _ => none)
    (fun n => if n = "TOMOPY_PYTHON_THREADS" then some 2 else none) 99 16 4567 "x"

/-- One slice, one angle, one detector pixel, a 1x1 grid, no sweep. -/
def args_small : Args := Args.mk [5] 1 1 1 [0] [0] 1 1 0

/-- The same with two sweeps requested. -/
def args_two_sweeps : Args := Args.mk [5] 1 1 1 [0] [0] 1 1 2

/-- A zero by minus-one grid. -/
def args_bad_grid : Args := Args.mk [5] 1 1 1 [0] [0] 0 (-1) 1

/-- A one-cell buffer, no call in flight, nothing printed yet. -/
def world_idle : World := World.mk [0] 0 []

/-- The same buffer with five calls in flight and earlier output. -/
def world_busy : World := World.mk [0] 5 [Diag.start_timer]

/-! ## Shared lemmas -/

theorem scast_int_false : scast_int false = 0 := rfl

theorem scast_int_true : scast_int true = 1 := rfl

/-- On the C path the call is the identity on the state and returns 0. -/
theorem cxx_art_c_path (run : RunAlgorithm) (env : Env) (a : Args) (w : World)
    (h : use_c_algorithm env = true) :
    cxx_art run env a w = Call.mk (Ret.returned 0) w := by
  simp [cxx_art, h, scast_int_false]

/-- Off the C path the way the call ends is decided by `run_algorithm` alone. -/
theorem cxx_art_dispatch_ret (run : RunAlgorithm) (env : Env) (a : Args) (w : World)
    (h : use_c_algorithm env = false) :
    (cxx_art run env a w).ret =
      (match (run art_cpu art_cuda a w.recon).thrown with
       | some what => Ret.thrown what
       | none => Ret.returned 1) := by
  simp only [cxx_art, h]
  cases hr : (run art_cpu art_cuda a w.recon).thrown <;> simp [scast_int_true]

/-- Off the C path the buffer is the one `run_algorithm` leaves. -/
theorem cxx_art_dispatch_recon (run : RunAlgorithm) (env : Env) (a : Args) (w : World)
    (h : use_c_algorithm env = false) :
    (cxx_art run env a w).world.recon = (run art_cpu art_cuda a w.recon).recon := by
  simp only [cxx_art, h]
  cases hr : (run art_cpu art_cuda a w.recon).thrown <;> simp

/-- Off the C path the diagnostics of `run_algorithm` follow the header that
carries the arguments of the call. -/
theorem cxx_art_dispatch_out (run : RunAlgorithm) (env : Env) (a : Args) (w : World)
    (h : use_c_algorithm env = false) :
    ∃ tl, (cxx_art run env a w).world.out =
      w.out ++ [Diag.start_timer, Diag.auto_timer "",
        Diag.header env.tid "cxx_art" a.num_iter a.dy a.dt a.dx a.ngridx a.ngridy,
        Diag.auto_timer ""] ++ (run art_cpu art_cuda a w.recon).out ++ tl := by
  simp only [cxx_art, h]
  cases hr : (run art_cpu art_cuda a w.recon).thrown
  · exact ⟨_, rfl⟩
  · exact ⟨[], by simp⟩

theorem art_cpu_thrown (a : Args) (r : List CFloat) : (art_cpu a r).thrown = some what_cxx := rfl

theorem art_cuda_thrown (a : Args) (r : List CFloat) :
    (art_cuda a r).thrown = some what_cuda := rfl

theorem what_cxx_ne_what_cuda : what_cxx ≠ what_cuda := by decide

/-! ## The backends -/

/-- C1: for every input both backends exit by the "not implemented" runtime error
(the CXX message for `art_cpu`, the CUDA message for `art_cuda`), never return
normally, and leave every element of `recon` as it was. -/
theorem art_backends_not_implemented (a : Args) (recon : List CFloat) :
    (art_cpu a recon).thrown = some "ART algorithm has not been implemented for CXX" ∧
    (art_cuda a recon).thrown = some "ART algorithm has not been implemented for CUDA" ∧
    (art_cpu a recon).thrown ≠ none ∧ (art_cuda a recon).thrown ≠ none ∧
    (art_cpu a recon).recon = recon ∧ (art_cuda a recon).recon = recon := by
  refine ⟨rfl, rfl, ?_, ?_, rfl, rfl⟩ <;> simp [art_cpu, art_cuda]

/-! ## Success of `cxx_art` under the dispatch layer of the specification -/

/-- C2: under the dispatch layer of the specification, whichever backend it
selects, no call of `cxx_art` returns the success value 1: a call returns 0 when
the C implementation is requested and otherwise ends by the "not implemented"
exception of the selected backend; in either case `recon` is the buffer that
was passed in, so a caller never sees success over an uncomputed `recon`. -/
theorem cxx_art_never_reports_success (sel : Device) (env : Env) (a : Args) (w : World) :
    (cxx_art (run_algorithm_select sel) env a w).ret ≠ Ret.returned 1 ∧
    (cxx_art (run_algorithm_select sel) env a w).ret =
      (if use_c_algorithm env then Ret.returned 0
       else Ret.thrown (match sel with
         | Device.cpu => "ART algorithm has not been implemented for CXX"
         | Device.cuda => "ART algorithm has not been implemented for CUDA")) ∧
    (cxx_art (run_algorithm_select sel) env a w).world.recon = w.recon := by
  cases hc : use_c_algorithm env
  · have hret := cxx_art_dispatch_ret (run_algorithm_select sel) env a w hc
    have hrec := cxx_art_dispatch_recon (run_algorithm_select sel) env a w hc
    cases sel
    · have ht : (run_algorithm_select Device.cpu art_cpu art_cuda a w.recon).thrown
          = some what_cxx := rfl
      rw [ht] at hret
      refine ⟨?_, ?_, ?_⟩
      · rw [hret]
        simp
      · rw [hret]
        simp [what_cxx]
      · rw [hrec]
        rfl
    · have ht : (run_algorithm_select Device.cuda art_cpu art_cuda a w.recon).thrown
          = some what_cuda := rfl
      rw [ht] at hret
      refine ⟨?_, ?_, ?_⟩
      · rw [hret]
        simp
      · rw [hret]
        simp [what_cuda]
      · rw [hrec]
        rfl
  · rw [cxx_art_c_path (run_algorithm_select sel) env a w hc]
    simp

/-! ## The C path -/

/-- C3: with `TOMOPY_USE_C_ART=true`, so that the C implementation is requested,
`cxx_art` returns 0, not a non-zero value, whatever the other arguments are. -/
theorem cxx_art_c_requested_returns_zero (run : RunAlgorithm) (a : Args) (w : World) :
    use_c_algorithm env_c_art = true ∧
    (cxx_art run env_c_art a w).ret = Ret.returned 0 := by
  have h : use_c_algorithm env_c_art = true := by decide
  exact ⟨h, by rw [cxx_art_c_path run env_c_art a w h]⟩

/-- C4: when the switch selects the C implementation, `cxx_art` returns at once:
whatever `run_algorithm` would do it is not consulted, `recon`, the `active`
counter and the diagnostic output are unchanged, and the call does not end by an
exception. -/
theorem cxx_art_c_path_frame (run : RunAlgorithm) (env : Env) (a : Args) (w : World)
    (h : use_c_algorithm env = true) :
    (cxx_art run env a w).world = w ∧
    (cxx_art run env a w).world.recon = w.recon ∧
    (cxx_art run env a w).world.active = w.active ∧
    (cxx_art run env a w).world.out = w.out ∧
    (∀ what, (cxx_art run env a w).ret ≠ Ret.thrown what) ∧
    (∀ other : RunAlgorithm, cxx_art other env a w = cxx_art run env a w) := by
  have e := cxx_art_c_path run env a w h
  refine ⟨by rw [e], by rw [e], by rw [e], by rw [e], ?_, ?_⟩
  · intro what
    rw [e]
    simp
  · intro other
    rw [e, cxx_art_c_path other env a w h]

/-- C4 at `TOMOPY_USE_C_ART=true`, a busy counter and earlier output. -/
theorem cxx_art_c_path_frame_witness :
    use_c_algorithm env_c_art = true ∧
    (cxx_art run_algorithm_catch env_c_art args_two_sweeps world_busy).world = world_busy :=
  ⟨by decide,
   (cxx_art_c_path_frame run_algorithm_catch env_c_art args_two_sweeps world_busy
      (by decide)).1⟩

/-! ## Grid dimensions are not validated -/

/-- C5, as stated, fails: on a 0 by -1 grid `art_cpu` and `art_cuda` end by the
"not implemented" error itself, `cxx_art` on the C path returns 0 without any
error, and off the C path the backend dispatch is reached (the CPU backend has
run and its error is the one that leaves `cxx_art`). -/
theorem bad_grid_not_rejected :
    args_bad_grid.ngridx ≤ 0 ∧ args_bad_grid.ngridy ≤ 0 ∧
    (art_cpu args_bad_grid world_idle.recon).thrown = some what_cxx ∧
    (art_cuda args_bad_grid world_idle.recon).thrown = some what_cuda ∧
    (cxx_art (run_algorithm_select Device.cpu) env_c_art args_bad_grid world_idle).ret
      = Ret.returned 0 ∧
    (cxx_art (run_algorithm_select Device.cpu) env_unset args_bad_grid world_idle).ret
      = Ret.thrown what_cxx ∧
    Diag.auto_timer "[cpu]" ∈
      (cxx_art (run_algorithm_select Device.cpu) env_unset args_bad_grid world_idle).world.out := by
  decide

/-- C5, amended: neither `cxx_art` nor a backend inspects `ngridx` or `ngridy`.
With `ngridx <= 0` or `ngridy <= 0` the backends end by the same "not
implemented" error as on every input; `cxx_art` returns 0 on the C path, and
otherwise reaches `run_algorithm` with the arguments unchanged, prints them in
its header, and ends the way `run_algorithm` does. -/
theorem bad_grid_reaches_dispatch (run : RunAlgorithm) (env : Env) (a : Args) (w : World)
    (hbad : a.ngridx ≤ 0 ∨ a.ngridy ≤ 0) :
    (art_cpu a w.recon).thrown = some what_cxx ∧
    (art_cuda a w.recon).thrown = some what_cuda ∧
    (use_c_algorithm env = true → cxx_art run env a w = Call.mk (Ret.returned 0) w) ∧
    (use_c_algorithm env = false →
      (cxx_art run env a w).ret =
        (match (run art_cpu art_cuda a w.recon).thrown with
         | some what => Ret.thrown what
         | none => Ret.returned 1) ∧
      (cxx_art run env a w).world.recon = (run art_cpu art_cuda a w.recon).recon ∧
      ∃ tl, (cxx_art run env a w).world.out =
        w.out ++ [Diag.start_timer, Diag.auto_timer "",
          Diag.header env.tid "cxx_art" a.num_iter a.dy a.dt a.dx a.ngridx a.ngridy,
          Diag.auto_timer ""] ++ (run art_cpu art_cuda a w.recon).out ++ tl) := by
  have _ := hbad
  exact ⟨rfl, rfl, cxx_art_c_path run env a w, fun hc =>
    ⟨cxx_art_dispatch_ret run env a w hc, cxx_art_dispatch_recon run env a w hc,
     cxx_art_dispatch_out run env a w hc⟩⟩

/-- C5, amended, on the 0 by -1 grid. -/
theorem bad_grid_reaches_dispatch_witness :
    (args_bad_grid.ngridx ≤ 0 ∨ args_bad_grid.ngridy ≤ 0) ∧
    (art_cpu args_bad_grid world_idle.recon).thrown = some what_cxx :=
  ⟨by decide,
   (bad_grid_reaches_dispatch run_algorithm_catch env_unset args_bad_grid world_idle
      (by decide)).1⟩

/-! ## No sweep is performed -/

/-- C6, as stated, fails: on a well-formed input with `num_iter = 0` the backend
`art_cpu` does not return the initial grid; it ends by the "not implemented"
error. -/
theorem art_cpu_zero_iter_throws :
    WellFormed args_small world_idle.recon ∧ args_small.num_iter = 0 ∧
    (art_cpu args_small world_idle.recon).thrown
      = some "ART algorithm has not been implemented for CXX" ∧
    (art_cpu args_small world_idle.recon).thrown ≠ none := by
  decide

/-- C6, amended: for every well-formed input with `num_iter >= 0` the backend
`art_cpu` reaches no returning state; it ends by the "not implemented" error
with `recon` still the initial grid, whatever `num_iter` is. -/
theorem art_cpu_never_sweeps (a : Args) (recon : List CFloat)
    (hwf : WellFormed a recon) (hiter : 0 ≤ a.num_iter) :
    (art_cpu a recon).thrown = some what_cxx ∧ (art_cpu a recon).thrown ≠ none ∧
    (art_cpu a recon).recon = recon ∧
    (∀ n : Int, art_cpu (Args.mk a.data a.dy a.dt a.dx a.center a.theta a.ngridx a.ngridy n)
      recon = art_cpu a recon) := by
  have _ := hwf
  have _ := hiter
  refine ⟨rfl, ?_, rfl, fun _ => rfl⟩
  simp [art_cpu]

/-- C6, amended, with two sweeps requested. -/
theorem art_cpu_never_sweeps_witness :
    WellFormed args_two_sweeps world_idle.recon ∧ 0 ≤ args_two_sweeps.num_iter ∧
    (art_cpu args_two_sweeps world_idle.recon).thrown = some what_cxx :=
  ⟨by decide, by decide,
   (art_cpu_never_sweeps args_two_sweeps world_idle.recon (by decide) (by decide)).1⟩

/-! ## The side channel does not gate the result -/

/-- C7: two runs of `cxx_art` with the same `run_algorithm`, the same arguments,
the same initial `recon` and the same values of `TOMOPY_USE_C_ART` and
`TOMOPY_USE_C_ALGORITHMS` end the same way and leave the same `recon`, whatever
the `active` counter, `TOMOPY_PYTHON_THREADS`, the thread id, the timer reading
and the earlier output are. -/
theorem cxx_art_side_channel_independent (run : RunAlgorithm) (env1 env2 : Env)
    (a : Args) (w1 w2 : World)
    (hart : env1.boolVar "TOMOPY_USE_C_ART" = env2.boolVar "TOMOPY_USE_C_ART")
    (halg : env1.boolVar "TOMOPY_USE_C_ALGORITHMS" = env2.boolVar "TOMOPY_USE_C_ALGORITHMS")
    (hrecon : w1.recon = w2.recon) :
    (cxx_art run env1 a w1).ret = (cxx_art run env2 a w2).ret ∧
    (cxx_art run env1 a w1).world.recon = (cxx_art run env2 a w2).world.recon := by
  have hsw : use_c_algorithm env1 = use_c_algorithm env2 := by
    simp [use_c_algorithm, GetEnv_bool, hart, halg]
  cases hc : use_c_algorithm env2
  · have hc1 : use_c_algorithm env1 = false := by rw [hsw, hc]
    rw [cxx_art_dispatch_ret run env1 a w1 hc1, cxx_art_dispatch_ret run env2 a w2 hc,
      cxx_art_dispatch_recon run env1 a w1 hc1, cxx_art_dispatch_recon run env2 a w2 hc,
      hrecon]
    exact ⟨rfl, rfl⟩
  · have hc1 : use_c_algorithm env1 = true := by rw [hsw, hc]
    rw [cxx_art_c_path run env1 a w1 hc1, cxx_art_c_path run env2 a w2 hc]
    exact ⟨rfl, hrecon⟩

/-- C7 on two runs that differ in the thread id, the clock, the thread-count
hint, the `active` counter and the earlier output. -/
theorem cxx_art_side_channel_independent_witness :
    world_idle.recon = world_busy.recon ∧
    (cxx_art run_algorithm_catch env_unset args_small world_idle).ret
      = (cxx_art run_algorithm_catch env_other args_small world_busy).ret ∧
    (cxx_art run_algorithm_catch env_unset args_small world_idle).world.out
      ≠ (cxx_art run_algorithm_catch env_other args_small world_busy).world.out :=
  ⟨by decide,
   (cxx_art_side_channel_independent run_algorithm_catch env_unset env_other args_small
      world_idle world_busy (by decide) (by decide) (by decide)).1,
   by decide⟩

/-! ## The switch -/

/-- C8: the switch of `cxx_art` is `TOMOPY_USE_C_ALGORITHMS` when set, otherwise
`TOMOPY_USE_C_ART` when set, otherwise false; `TOMOPY_USE_C_ALGORITHMS=false`
overrides `TOMOPY_USE_C_ART=true`; with neither set `cxx_art` takes the dispatch
path. -/
theorem use_c_algorithm_precedence (env : Env) :
    use_c_algorithm env = effective_switch_spec env ∧
    (∀ b, env.boolVar "TOMOPY_USE_C_ALGORITHMS" = some b → use_c_algorithm env = b) ∧
    (∀ b, env.boolVar "TOMOPY_USE_C_ALGORITHMS" = none →
      env.boolVar "TOMOPY_USE_C_ART" = some b → use_c_algorithm env = b) ∧
    (env.boolVar "TOMOPY_USE_C_ALGORITHMS" = some false →
      env.boolVar "TOMOPY_USE_C_ART" = some true → use_c_algorithm env = false) ∧
    (env.boolVar "TOMOPY_USE_C_ALGORITHMS" = none →
      env.boolVar "TOMOPY_USE_C_ART" = none →
      use_c_algorithm env = false ∧
      ∀ (run : RunAlgorithm) (a : Args) (w : World),
        (cxx_art run env a w).world.recon = (run art_cpu art_cuda a w.recon).recon ∧
        (cxx_art run env a w).ret =
          (match (run art_cpu art_cuda a w.recon).thrown with
           | some what => Ret.thrown what
           | none => Ret.returned 1)) := by
  refine ⟨?_, ?_, ?_, ?_, ?_⟩
  · simp only [use_c_algorithm, GetEnv_bool, effective_switch_spec]
  · intro b h
    simp [use_c_algorithm, GetEnv_bool, h]
  · intro b h1 h2
    simp [use_c_algorithm, GetEnv_bool, h1, h2]
  · intro h1 _
    simp [use_c_algorithm, GetEnv_bool, h1]
  · intro h1 h2
    have hc : use_c_algorithm env = false := by
      simp [use_c_algorithm, GetEnv_bool, h1, h2]
    exact ⟨hc, fun run a w =>
      ⟨cxx_art_dispatch_recon run env a w hc, cxx_art_dispatch_ret run env a w hc⟩⟩

/-- C8 at `TOMOPY_USE_C_ART=true`, `TOMOPY_USE_C_ALGORITHMS=false`. -/
theorem use_c_algorithm_precedence_witness :
    env_override.boolVar "TOMOPY_USE_C_ALGORITHMS" = some false ∧
    env_override.boolVar "TOMOPY_USE_C_ART" = some true ∧
    use_c_algorithm env_override = false :=
  ⟨by decide, by decide,
   (use_c_algorithm_precedence env_override).2.2.2.1 (by decide) (by decide)⟩

/-! ## The return value -/

/-- C9: when the switch does not request the C implementation and
`run_algorithm` returns normally, `cxx_art` returns exactly 1; a call that
returns normally returns 0 if and only if the C implementation was requested
and 1 otherwise; among the calls that return normally the value depends on none
of `data`, `dy`, `dt`, `dx`, `center`, `theta`, `ngridx`, `ngridy`, `num_iter`. -/
theorem cxx_art_return_value (run : RunAlgorithm) (env : Env) (a : Args) (w : World) :
    (use_c_algorithm env = false → (run art_cpu art_cuda a w.recon).thrown = none →
      (cxx_art run env a w).ret = Ret.returned 1) ∧
    (∀ v, (cxx_art run env a w).ret = Ret.returned v →
      (v = 0 ↔ use_c_algorithm env = true) ∧ (v = 1 ↔ use_c_algorithm env = false)) ∧
    (∀ (a2 : Args) (w2 : World) (v v2 : Int),
      (cxx_art run env a w).ret = Ret.returned v →
      (cxx_art run env a2 w2).ret = Ret.returned v2 → v = v2) := by
  have key : ∀ (b : Args) (u : World) (v : Int), (cxx_art run env b u).ret = Ret.returned v →
      v = if use_c_algorithm env then 0 else 1 := by
    intro b u v hv
    cases hc : use_c_algorithm env
    · rw [cxx_art_dispatch_ret run env b u hc] at hv
      cases hr : (run art_cpu art_cuda b u.recon).thrown
      · rw [hr] at hv
        simp at hv
        simp [← hv]
      · rw [hr] at hv
        simp at hv
    · rw [cxx_art_c_path run env b u hc] at hv
      simp at hv
      simp [← hv]
  refine ⟨?_, ?_, ?_⟩
  · intro hc hr
    rw [cxx_art_dispatch_ret run env a w hc, hr]
  · intro v hv
    have := key a w v hv
    cases hc : use_c_algorithm env <;> simp [hc] at this <;> simp [this]
  · intro a2 w2 v v2 hv hv2
    rw [key a w v hv, key a2 w2 v2 hv2]

/-- C9 at a dispatch layer that returns normally, nothing set in the
environment. -/
theorem cxx_art_return_value_witness :
    use_c_algorithm env_unset = false ∧
    (run_algorithm_catch art_cpu art_cuda args_small world_idle.recon).thrown = none ∧
    (cxx_art run_algorithm_catch env_unset args_small world_idle).ret = Ret.returned 1 :=
  ⟨by decide, by decide,
   (cxx_art_return_value run_algorithm_catch env_unset args_small world_idle).1
      (by decide) (by decide)⟩

end Tomopy
